import Mathlib

/-!
Verification development for the discord-openai-bot repository.

The Python sources are shallowly embedded as Lean definitions:

* `src/util.py` - `chunk_text`, `ChatCompletionParameters`,
  `ResponseParameters`, `TextToSpeechParameters`, `format_openai_error`
  and the model/voice constants;
* `src/openai_api.py` - `append_response_embeds`, the `converse`
  registration logic, the `on_message` listener and
  `handle_new_message_in_conversation`;
* `src/button_view.py` - the regenerate / play-pause / stop button
  handlers;
* `src/chatgpt.py` - the legacy thread `on_message` handler.

Conventions: Python strings are Lean `String` (character counts use
`String.length`, matching Python `len`); Python `None`-able values are
`Option`; Discord user/channel/interaction ids are `Nat`; float-valued
sampling parameters are `Rat` (they are only ever stored and compared,
never computed with); the external OpenAI call is an oracle argument of
type `Except PyError (String × String)` carrying either an error object
or the pair (response id, output text).  The registry
`conversation_histories` (a Python dict in insertion order) is a list of
key/value pairs.
-/

namespace DiscordBot

/-- Python source, util.py: `CHUNK_TEXT_SIZE = 3500`. -/
def CHUNK_TEXT_SIZE : Nat := 3500

/-- Python source, util.py: `REASONING_MODELS = ["o4-mini", "o3", "o3-mini", "o1", "o1-mini"]`. -/
def REASONING_MODELS : List String := ["o4-mini", "o3", "o3-mini", "o1", "o1-mini"]

/-- Python source, util.py: `REASONING_EFFORT_MEDIUM = "medium"`. -/
def REASONING_EFFORT_MEDIUM : String := "medium"

/-- Recursion core of `chunk_text`.  Python builds
`[text[i : i + size] for i in range(0, len(text), size)]`; taking the
slices in order is the same as repeatedly splitting off the first `size`
characters, which is what this function does.  The `fuel` argument (one
unit per produced chunk, `length` units always suffice when `0 < size`)
only makes the recursion structural.  Python raises `ValueError` when
`size = 0` (zero `range` step); the model is only ever used and only
ever reasoned about with `0 < size`. -/
def chunkFuel (size : Nat) : Nat → List Char → List (List Char)
  | _, [] => []
  | 0, _ :: _ => []
  | fuel + 1, c :: cs => ((c :: cs).take size) :: chunkFuel size fuel ((c :: cs).drop size)

/-- Python source, util.py:
`def chunk_text(text, size=CHUNK_TEXT_SIZE): return list(text[i : i + size] for i in range(0, len(text), size))`.
Call sites pass `CHUNK_TEXT_SIZE` explicitly for the Python default. -/
def chunk_text (text : String) (size : Nat) : List String :=
  (chunkFuel size text.length text.data).map String.mk

/-- Embed colours used by the bot (discord.Colour values). -/
inductive Colour
  | blue
  | red
  | green
  deriving DecidableEq, Repr

/-- Discord embed as the bot uses it: a title, a description and a
colour.  Python `None` titles/descriptions are the empty string (the
source always reads them through `embed.title or ""`). -/
structure Embed where
  title : String
  description : String
  color : Colour
  deriving DecidableEq, Repr

/-- Character count of one embed as `append_response_embeds` counts it:
`len(embed.description or "") + len(embed.title or "")`. -/
def embedChars (e : Embed) : Nat :=
  e.description.length + e.title.length

/-- Total character count of a list of embeds (the `current_total` sum
in `append_response_embeds`). -/
def usedChars (embeds : List Embed) : Nat :=
  (embeds.map embedChars).sum

/-- Python source, openai_api.py line 47: the fixed truncation notice
appended by `append_response_embeds` (64 characters). -/
def truncationNotice : String :=
  "\n\n... (Response truncated due to Discord\x27s 6000 character limit)"

/-- Python slice `s[:k]` for an `int` bound `k` that may be negative:
a negative bound counts from the end and clamps at zero. -/
def pySliceTo (s : String) (k : Int) : String :=
  if 0 ≤ k then String.mk (s.data.take k.toNat)
  else String.mk (s.data.take ((s.length : Int) + k).toNat)

/-- Python source, openai_api.py line 54: the embed title
`"Response" + f" (Part {index})" if index > 1 else "Response"`
(by Python operator precedence the concatenation binds before the
conditional). -/
def responseTitle (index : Nat) : String :=
  if index > 1 then "Response" ++ " (Part " ++ toString index ++ ")" else "Response"

/-- Python source, openai_api.py lines 36-48 (the first half of
`append_response_embeds`): compute the characters already used by the
existing embeds, the remaining budget `6000 - current_total - 100`, and
truncate the response text to `remaining_chars - 50` characters plus
the fixed `truncationNotice` when it would exceed that budget. -/
def cappedResponseText (embeds : List Embed) (response_text : String) : String :=
  let current_total := usedChars embeds
  let remaining_chars : Int := 6000 - (current_total : Int) - 100
  if (response_text.length : Int) > remaining_chars then
    pySliceTo response_text (remaining_chars - 50) ++ truncationNotice
  else response_text

/-- Python source, openai_api.py lines 33-58, `append_response_embeds`:
cap the response text (`cappedResponseText`), then append one blue
embed per 3500-character chunk, titled via `responseTitle` with 1-based
enumeration. -/
def append_response_embeds (embeds : List Embed) (response_text : String) : List Embed :=
  embeds ++ (chunk_text (cappedResponseText embeds response_text) CHUNK_TEXT_SIZE).enum.map
    (fun p => { title := responseTitle (p.1 + 1), description := p.2, color := Colour.blue })

theorem chunkFuel_flatten (size : Nat) (hsize : 0 < size) :
    ∀ (fuel : Nat) (l : List Char), l.length ≤ fuel →
      (chunkFuel size fuel l).flatten = l := by
  intro fuel
  induction fuel with
  | zero =>
      intro l hl
      cases l with
      | nil => rfl
      | cons c cs => simp at hl
  | succ n ih =>
      intro l hl
      cases l with
      | nil => rfl
      | cons c cs =>
          have hdrop : ((c :: cs).drop size).length ≤ n := by
            simp only [List.length_drop, List.length_cons] at *
            omega
          simp only [chunkFuel, List.flatten_cons, ih _ hdrop, List.take_append_drop]

theorem chunkFuel_length_le (size : Nat) (hsize : 0 < size) :
    ∀ (fuel : Nat) (l : List Char) (n : Nat), l.length ≤ fuel → l.length ≤ size * n →
      (chunkFuel size fuel l).length ≤ n := by
  intro fuel
  induction fuel with
  | zero =>
      intro l n hl _
      cases l with
      | nil => simp [chunkFuel]
      | cons c cs => simp at hl
  | succ m ih =>
      intro l n hl hn
      cases l with
      | nil => simp [chunkFuel]
      | cons c cs =>
          cases n with
          | zero =>
              simp only [Nat.mul_zero, Nat.le_zero] at hn
              simp at hn
          | succ k =>
              have hmul : size * (k + 1) = size * k + size := by ring
              have hdroplen : ((c :: cs).drop size).length ≤ m := by
                simp only [List.length_drop, List.length_cons] at *
                omega
              have hdropbound : ((c :: cs).drop size).length ≤ size * k := by
                simp only [List.length_drop, List.length_cons] at *
                omega
              have := ih ((c :: cs).drop size) k hdroplen hdropbound
              simp only [chunkFuel, List.length_cons]
              omega

theorem chunkFuel_mem (size : Nat) (hsize : 0 < size) :
    ∀ (fuel : Nat) (l : List Char) (c : List Char), c ∈ chunkFuel size fuel l →
      c.length ≤ size ∧ c ≠ [] := by
  intro fuel
  induction fuel with
  | zero =>
      intro l c hc
      cases l with
      | nil => simp [chunkFuel] at hc
      | cons x xs => simp [chunkFuel] at hc
  | succ m ih =>
      intro l c hc
      cases l with
      | nil => simp [chunkFuel] at hc
      | cons x xs =>
          simp only [chunkFuel, List.mem_cons] at hc
          rcases hc with hc | hc
          · subst hc
            constructor
            · rw [List.length_take]
              exact min_le_left _ _
            · cases size with
              | zero => omega
              | succ s => simp [List.take_cons]
          · exact ih _ _ hc

/-- One entry of a chat-completions message list (a `{"role": ..., "content": ...}` dict). -/
structure Message where
  role : String
  content : String
  deriving DecidableEq, Repr

/-- Python source, util.py lines 33-68, `ChatCompletionParameters.__init__`:
reasoning models force `temperature = 1.0` and drop `top_p`; all other
arguments are stored as given (a `None` messages argument becomes `[]`). -/
structure ChatCompletionParameters where
  messages : List Message
  model : String
  persona : String
  frequency_penalty : Option ℚ
  presence_penalty : Option ℚ
  seed : Option Int
  temperature : Option ℚ
  top_p : Option ℚ
  conversation_starter : Option Nat
  conversation_id : Option Nat
  channel_id : Option Nat
  paused : Bool
  deriving DecidableEq, Repr

/-- Constructor for `ChatCompletionParameters`, in the Python argument
order. -/
def mkChatCompletionParameters
    (messages : Option (List Message)) (model persona : String)
    (frequency_penalty presence_penalty : Option ℚ) (seed : Option Int)
    (temperature top_p : Option ℚ)
    (conversation_starter conversation_id channel_id : Option Nat)
    (paused : Bool) : ChatCompletionParameters :=
  { messages := messages.getD []
    model
    persona
    frequency_penalty
    presence_penalty
    seed
    temperature := if model ∈ REASONING_MODELS then some 1 else temperature
    top_p := if model ∈ REASONING_MODELS then none else top_p
    conversation_starter
    conversation_id
    channel_id
    paused }

/-- One content block of a multimodal Responses-API input
(`{"type": "text", ...}` or `{"type": "image_url", ...}`). -/
inductive ContentBlock
  | text (s : String)
  | image (url : String)
  deriving DecidableEq, Repr

/-- The `input` field of `ResponseParameters`: either a plain string or
a list of content blocks. -/
inductive InputVal
  | str (s : String)
  | blocks (items : List ContentBlock)
  deriving DecidableEq, Repr

/-- The `reasoning` dict of the Responses API (`{"effort": ...}`). -/
structure ReasoningCfg where
  effort : String
  deriving DecidableEq, Repr

/-- Python source, util.py lines 97-150, `ResponseParameters.__init__`:
for reasoning models `temperature`/`top_p` are cleared and `reasoning`
defaults to `{"effort": "medium"}`; otherwise the user-supplied sampling
values are kept and `reasoning` is `None`.  `response_id_history` keeps
the ordered response ids for regeneration support. -/
structure ResponseParameters where
  model : String
  instructions : String
  input : InputVal
  previous_response_id : Option String
  temperature : Option ℚ
  top_p : Option ℚ
  reasoning : Option ReasoningCfg
  frequency_penalty : Option ℚ
  presence_penalty : Option ℚ
  seed : Option Int
  conversation_starter : Option Nat
  conversation_id : Option Nat
  channel_id : Option Nat
  paused : Bool
  response_id_history : List String
  deriving DecidableEq, Repr

/-- Constructor for `ResponseParameters`, in the Python argument order.
A `None` input becomes `""` and a `None` history becomes `[]`, as in the
source.  (Python treats an empty `reasoning` dict as falsy; the dict is
modelled as a non-empty record, so only `None` triggers the default.) -/
def mkResponseParameters
    (model instructions : String) (input : Option InputVal)
    (previous_response_id : Option String)
    (frequency_penalty presence_penalty : Option ℚ) (seed : Option Int)
    (temperature top_p : Option ℚ) (reasoning : Option ReasoningCfg)
    (conversation_starter conversation_id channel_id : Option Nat)
    (paused : Bool) (response_id_history : Option (List String)) : ResponseParameters :=
  { model
    instructions
    input := input.getD (InputVal.str "")
    previous_response_id
    temperature := if model ∈ REASONING_MODELS then none else temperature
    top_p := if model ∈ REASONING_MODELS then none else top_p
    reasoning := if model ∈ REASONING_MODELS then
        some (reasoning.getD { effort := REASONING_EFFORT_MEDIUM }) else none
    frequency_penalty
    presence_penalty
    seed
    conversation_starter
    conversation_id
    channel_id
    paused
    response_id_history := response_id_history.getD [] }

/-- Python source, util.py: `RICH_TTS_MODELS = ["gpt-4o-tts", "gpt-4o-mini-tts"]`. -/
def RICH_TTS_MODELS : List String := ["gpt-4o-tts", "gpt-4o-mini-tts"]

/-- Python source, util.py: `RICH_TTS_VOICES` (a set, listed here in
the source order). -/
def RICH_TTS_VOICES : List String := ["ash", "ballad", "coral", "sage", "verse"]

/-- Python source, util.py: `STANDARD_TTS_VOICES`. -/
def STANDARD_TTS_VOICES : List String := ["alloy", "echo", "fable", "onyx", "nova", "shimmer"]

/-- Python source, util.py: `DEFAULT_TTS_VOICE = "alloy"`. -/
def DEFAULT_TTS_VOICE : String := "alloy"

/-- Python source, util.py: `DEFAULT_SUPPORTED_TTS_VOICES = STANDARD_TTS_VOICES | RICH_TTS_VOICES`. -/
def DEFAULT_SUPPORTED_TTS_VOICES : List String := STANDARD_TTS_VOICES ++ RICH_TTS_VOICES

/-- Python source, util.py lines 24-29: the dict
`MODEL_SUPPORTED_TTS_VOICES`, read through `.get(model, DEFAULT_SUPPORTED_TTS_VOICES)`
as in `TextToSpeechParameters.__init__`. -/
def MODEL_SUPPORTED_TTS_VOICES (model : String) : List String :=
  if model = "tts-1" then STANDARD_TTS_VOICES
  else if model = "tts-1-hd" then STANDARD_TTS_VOICES
  else if model = "gpt-4o-tts" then STANDARD_TTS_VOICES ++ RICH_TTS_VOICES
  else if model = "gpt-4o-mini-tts" then STANDARD_TTS_VOICES ++ RICH_TTS_VOICES
  else DEFAULT_SUPPORTED_TTS_VOICES

/-- Python source, util.py lines 258-295, `TextToSpeechParameters.__init__`:
an unsupported voice falls back to `DEFAULT_TTS_VOICE`; `instructions`
are kept only for rich TTS models. -/
structure TextToSpeechParameters where
  input : String
  model : String
  voice : String
  instructions : Option String
  response_format : String
  speed : ℚ
  deriving DecidableEq, Repr

/-- Constructor for `TextToSpeechParameters`, in the Python argument order. -/
def mkTextToSpeechParameters
    (input model voice instructions response_format : String) (speed : ℚ) :
    TextToSpeechParameters :=
  { input
    model
    voice := if voice ∈ MODEL_SUPPORTED_TTS_VOICES model then voice else DEFAULT_TTS_VOICE
    instructions := if model ∈ RICH_TTS_MODELS then some instructions else none
    response_format
    speed }

/-- Standard OpenAI error fields recovered from an error payload.
Python source, util.py `_parse_error_payload` / `_extract_response_error_info`:
both helpers descend into the payload dict and produce the stripped
`message` / `type` / `code` / `param` strings; the dict plumbing is
abstracted into this record (with blank-or-absent folded into `none`). -/
structure ErrorFields where
  message : Option String
  etype : Option String
  code : Option String
  param : Option String
  deriving DecidableEq, Repr

/-- A Python exception as `format_openai_error` inspects it via
`getattr`: the optional nonblank `message` attribute, `str(error)`,
optional `status_code` / `type` / `code` / `param` attributes, the class
name, and the fields extracted from `APIError.body` or the HTTP
response (see `ErrorFields`). -/
structure PyError where
  message : Option String
  strRepr : String
  status_code : Option Int
  etype : Option String
  code : Option String
  param : Option String
  className : String
  extracted : ErrorFields
  deriving DecidableEq, Repr

/-- Python source, util.py lines 374-418, `format_openai_error`:
prefer the extracted payload message over the exception's own message
over `str(error)`, then append a detail block listing status, class
name (unless plain `Exception`), type, code and param when present. -/
def format_openai_error (e : PyError) : String :=
  let message := e.message.getD e.strRepr
  let message := e.extracted.message.getD message
  let etype := match e.etype with | some t => some t | none => e.extracted.etype
  let code := match e.code with | some c => some c | none => e.extracted.code
  let param := match e.param with | some p => some p | none => e.extracted.param
  let message := if message = "" then "An unexpected error occurred." else message
  let details : List String :=
    (match e.status_code with | some s => ["Status: " ++ toString s] | none => []) ++
    (if e.className ≠ "" ∧ e.className ≠ "Exception" then ["Error: " ++ e.className] else []) ++
    (match etype with | some t => ["Type: " ++ t] | none => []) ++
    (match code with | some c => ["Code: " ++ c] | none => []) ++
    (match param with | some p => ["Param: " ++ p] | none => [])
  if details = [] then message else message ++ "\n\n" ++ String.intercalate "\n" details

/-- The conversation registry `self.conversation_histories` of the
`OpenAIAPI` cog: a Python dict from interaction id to
`ResponseParameters`, kept in insertion order. -/
abbrev Registry : Type := List (Nat × ResponseParameters)

/-- An inbound Discord message as `on_message` reads it: author id,
channel id, text content and attachment URLs. -/
structure InboundMessage where
  authorId : Nat
  channelId : Nat
  content : String
  attachments : List String
  deriving DecidableEq, Repr

/-- The outcome of the external OpenAI Responses call: an exception, or
the pair (response id, output text). -/
abbrev ProviderResult : Type := Except PyError (String × String)

/-- Python source, openai_api.py lines 100-112: build the Responses-API
input from a message - a plain string when there are no attachments,
otherwise a text block followed by one image block per attachment. -/
def build_input_content (msg : InboundMessage) : InputVal :=
  if msg.attachments = [] then InputVal.str msg.content
  else InputVal.blocks (ContentBlock.text msg.content ::
    msg.attachments.map ContentBlock.image)

/-- Python source, openai_api.py lines 82-188,
`handle_new_message_in_conversation`: call the provider with the
conversation's parameters; on success store the new response id
(`previous_response_id` and `response_id_history`) and reply with the
chunked embeds; on any exception reply with a red `Error` embed holding
`format_openai_error(e)` and leave the conversation unchanged. -/
def handle_new_message_in_conversation (conv : ResponseParameters)
    (msg : InboundMessage) (provider : ProviderResult) :
    ResponseParameters × List Embed :=
  let _input := build_input_content msg
  match provider with
  | Except.ok (rid, output_text) =>
      let response_text := if output_text = "" then "No response." else output_text
      let conv2 := { conv with
        previous_response_id := some rid
        response_id_history := conv.response_id_history ++ [rid] }
      (conv2, append_response_embeds [] response_text)
  | Except.error e =>
      (conv, [{ title := "Error", description := format_openai_error e, color := Colour.red }])

/-- Python source, openai_api.py lines 232-237: does this conversation
match the inbound message (same channel and written by the
conversation starter)? -/
def conversationMatches (msg : InboundMessage) (conv : ResponseParameters) : Bool :=
  (conv.channel_id == some msg.channelId) && (conv.conversation_starter == some msg.authorId)

/-- Result of the `on_message` listener.  Only `handled` sends a reply;
`ignoredSelf`, `noMatch` and `droppedPaused` all fall through without
replying to the author. -/
inductive OnMessageResult
  | ignoredSelf
  | noMatch
  | droppedPaused
  | handled (reply : List Embed)
  deriving DecidableEq, Repr

/-- Which `on_message` outcomes send any reply back to the author
(only the handled path calls `message.reply`). -/
def sendsReply : OnMessageResult → Bool
  | OnMessageResult.handled _ => true
  | _ => false

/-- Python source, openai_api.py lines 218-246, `OpenAIAPI.on_message`:
ignore the bot's own messages; find the first conversation matching the
channel and author; drop the message when that conversation is paused;
otherwise handle it (storing the updated conversation back in the
registry). -/
def on_message (hist : Registry) (botId : Nat) (msg : InboundMessage)
    (provider : ProviderResult) : Registry × OnMessageResult :=
  if msg.authorId == botId then (hist, OnMessageResult.ignoredSelf)
  else
    match hist.find? (fun e => conversationMatches msg e.2) with
    | none => (hist, OnMessageResult.noMatch)
    | some (cid, conv) =>
        if conv.paused then (hist, OnMessageResult.droppedPaused)
        else
          let r := handle_new_message_in_conversation conv msg provider
          (hist.map (fun e => if e.1 == cid then (e.1, r.1) else e),
           OnMessageResult.handled r.2)

/-- Result of the `/converse` slash command: rejected because an active
conversation already exists for this (user, channel) pair, started (the
new conversation was registered under the interaction id), or failed
with a formatted provider error (nothing registered). -/
inductive ConverseOutcome
  | alreadyActive
  | started (responseId : String)
  | apiError (message : String)
  deriving DecidableEq, Repr

/-- Python source, openai_api.py lines 347-507, `OpenAIAPI.converse`:
reject when some registered conversation has this author and channel;
otherwise build the `ResponseParameters` (reasoning models get
`temperature`/`top_p` cleared and a medium reasoning effort), call the
provider, and on success record the response id, clear the input and
register the conversation under the interaction id.  On a provider
exception nothing is registered. -/
def converse (hist : Registry) (author channelId interactionId : Nat)
    (prompt persona model : String) (attachment : Option String)
    (frequency_penalty presence_penalty : Option ℚ) (seed : Option Int)
    (temperature top_p : Option ℚ) (provider : ProviderResult) :
    Registry × ConverseOutcome :=
  if hist.any (fun e => (e.2.conversation_starter == some author) &&
      (e.2.channel_id == some channelId)) then
    (hist, ConverseOutcome.alreadyActive)
  else
    let input_content : InputVal :=
      match attachment with
      | some url => InputVal.blocks [ContentBlock.text prompt, ContentBlock.image url]
      | none => InputVal.str prompt
    let params := mkResponseParameters model persona (some input_content) none
      frequency_penalty presence_penalty seed
      (if model ∈ REASONING_MODELS then none else temperature)
      (if model ∈ REASONING_MODELS then none else top_p)
      (if model ∈ REASONING_MODELS then some { effort := REASONING_EFFORT_MEDIUM } else none)
      (some author) (some interactionId) (some channelId) false (some [])
    match provider with
    | Except.ok (rid, _output) =>
        let params2 := { params with
          previous_response_id := some rid
          response_id_history := params.response_id_history ++ [rid]
          input := InputVal.blocks [] }
        (hist ++ [(interactionId, params2)], ConverseOutcome.started rid)
    | Except.error e => (hist, ConverseOutcome.apiError (format_openai_error e))

/-- Python source, button_view.py lines 9-17: a `ButtonView` stores the
cog, the conversation starter and the conversation id. -/
structure ButtonView where
  conversation_starter : Nat
  conversation_id : Nat
  deriving DecidableEq, Repr

/-- Does the registry contain this conversation id
(`self.conversation_id in self.cog.conversation_histories`)? -/
def containsKey (hist : Registry) (k : Nat) : Bool :=
  hist.any (fun e => e.1 == k)

/-- Outcome of the regenerate button, one constructor per message the
handler can send.  `insufficientHistory` names the condition the design
document requires for conversations with fewer than two turns; it is
listed so that statements can compare the code against it, and no code
path produces it. -/
inductive RegenOutcome
  | notAllowed
  | notFound
  | insufficientHistory
  | handlerError
  | cantFindMessage
  | regenerated
  deriving DecidableEq, Repr

/-- Python source, button_view.py lines 19-71,
`ButtonView.regenerate_button`: reject non-starters ("You are not
allowed to regenerate the response."), then unknown conversation ids
("No active conversation found.").  After those guards the handler
evaluates `len(conversation.messages)` - but the registry stores
`ResponseParameters` objects, which have no `messages` attribute
(`ResponseParameters.__init__` never assigns one), so the access raises
`AttributeError`, the `except` branch replies "An error occurred while
regenerating the response.", and neither the channel-history lookup nor
`handle_new_message_in_conversation` is reached.  Hence the result
ignores `channelHistory` and `provider` and never mutates the registry:
the pops of `conversation.messages` and any rollback of
`response_id_history` never execute. -/
def regenerate_button (hist : Registry) (view : ButtonView) (user : Nat)
    (_channelHistory : List InboundMessage) (_provider : ProviderResult) :
    Registry × RegenOutcome :=
  if user ≠ view.conversation_starter then (hist, RegenOutcome.notAllowed)
  else if ¬ containsKey hist view.conversation_id then (hist, RegenOutcome.notFound)
  else (hist, RegenOutcome.handlerError)

/-- Outcome of the play/pause button. -/
inductive PauseOutcome
  | notAllowed
  | toggled (nowPaused : Bool)
  | notFound
  deriving DecidableEq, Repr

/-- Python source, button_view.py lines 73-102,
`ButtonView.play_pause_button`: reject non-starters ("You are not
allowed to pause the conversation."); otherwise flip the `paused` flag
of the stored conversation and report the new state, or report that no
active conversation was found. -/
def play_pause_button (hist : Registry) (view : ButtonView) (user : Nat) :
    Registry × PauseOutcome :=
  if user ≠ view.conversation_starter then (hist, PauseOutcome.notAllowed)
  else
    match hist.find? (fun e => e.1 == view.conversation_id) with
    | some (_, conv) =>
        (hist.map (fun e => if e.1 == view.conversation_id then
            (e.1, { e.2 with paused := !e.2.paused }) else e),
         PauseOutcome.toggled (!conv.paused))
    | none => (hist, PauseOutcome.notFound)

/-- Outcome of the stop button. -/
inductive StopOutcome
  | notAllowed
  | ended
  | notFound
  deriving DecidableEq, Repr

/-- Python source, button_view.py lines 104-130, `ButtonView.stop_button`:
reject non-starters ("You are not allowed to end this conversation.");
otherwise delete the conversation from the registry, or report that no
active conversation was found. -/
def stop_button (hist : Registry) (view : ButtonView) (user : Nat) :
    Registry × StopOutcome :=
  if user ≠ view.conversation_starter then (hist, StopOutcome.notAllowed)
  else if containsKey hist view.conversation_id then
    (hist.filter (fun e => !(e.1 == view.conversation_id)), StopOutcome.ended)
  else (hist, StopOutcome.notFound)

/-- The uncaught exceptions the legacy `ChatGPT` cog raises before any
state change or provider call. -/
inductive ChatGPTRaise
  | typeError
  | keyError
  | attributeError
  deriving DecidableEq, Repr

/-- Python source, chatgpt.py lines 61-145, the legacy
`ChatGPT.on_message` for a message in a "ChatGPT"-named thread (other
messages return at the two guards above).  Line 77 evaluates
`self.thread_params[message.channel.id].thread_owner`, outside any
try-block: the dict subscript raises `KeyError` when the thread has no
entry, and were an entry present the attribute access would raise
`AttributeError`, because `ChatCompletionParameters.__init__` (util.py)
neither accepts nor assigns `thread_owner` - every populating call site
(`ChatCompletionParameters(..., thread_owner=...)`, chatgpt.py lines 86
and 164) itself raises `TypeError`, so the dict is in fact always empty
and the `KeyError` branch is the one the program takes.  Either way the
handler aborts before the history initialization (line 83), the
user-turn append (line 110) and the chat-completions call (line 113):
the thread histories are returned unchanged and the provider is never
invoked, which is why this function takes no provider oracle. -/
def chatgpt_on_message (histories : List (Nat × List Message))
    (thread_params : List (Nat × ChatCompletionParameters)) (channelId : Nat) :
    (List (Nat × List Message)) × ChatGPTRaise :=
  match thread_params.find? (fun e => e.1 == channelId) with
  | none => (histories, ChatGPTRaise.keyError)
  | some _ => (histories, ChatGPTRaise.attributeError)

/-- Python source, chatgpt.py lines 147-214, the legacy
`ChatGPT.on_thread_create` for a "ChatGPT"-named thread: its first
statement constructs
`ChatCompletionParameters(model="gpt-4-turbo", thread_owner=thread.owner)`
(line 163), but `ChatCompletionParameters.__init__` accepts no
`thread_owner` keyword, so the call raises `TypeError` before
`conversation_histories` or `thread_params` is touched - the handler
never registers anything, whatever the thread id. -/
def chatgpt_on_thread_create (histories : List (Nat × List Message))
    (thread_params : List (Nat × ChatCompletionParameters)) (_threadId : Nat) :
    (List (Nat × List Message)) × (List (Nat × ChatCompletionParameters)) × ChatGPTRaise :=
  (histories, thread_params, ChatGPTRaise.typeError)

theorem alloy_mem_supported (model : String) :
    DEFAULT_TTS_VOICE ∈ MODEL_SUPPORTED_TTS_VOICES model := by
  unfold MODEL_SUPPORTED_TTS_VOICES
  split_ifs <;> decide

/-- C10: for every model string and every requested voice, the
constructed text-to-speech parameters carry a voice in the supported
set for that model (standard voices for tts-1 / tts-1-hd, standard plus
rich voices for the gpt-4o TTS models and for unknown models); a
supported voice is kept and an unsupported one is silently replaced by
the default voice "alloy". -/
theorem C10_tts_voice_supported (model voice input instructions response_format : String)
    (speed : ℚ) :
    (mkTextToSpeechParameters input model voice instructions response_format speed).voice
      ∈ MODEL_SUPPORTED_TTS_VOICES model ∧
    (voice ∈ MODEL_SUPPORTED_TTS_VOICES model →
      (mkTextToSpeechParameters input model voice instructions response_format speed).voice
        = voice) ∧
    (voice ∉ MODEL_SUPPORTED_TTS_VOICES model →
      (mkTextToSpeechParameters input model voice instructions response_format speed).voice
        = DEFAULT_TTS_VOICE) := by
  unfold mkTextToSpeechParameters
  by_cases h : voice ∈ MODEL_SUPPORTED_TTS_VOICES model
  · exact ⟨by simp only [if_pos h]; exact h, fun _ => by simp only [if_pos h],
      fun hn => absurd h hn⟩
  · exact ⟨by simp only [if_neg h]; exact alloy_mem_supported model,
      fun hy => absurd hy h, fun _ => by simp only [if_neg h]⟩

theorem C10_witness :
    "ash" ∉ MODEL_SUPPORTED_TTS_VOICES "tts-1" ∧
    (mkTextToSpeechParameters "Hi" "tts-1" "ash" "" "mp3" 1).voice = DEFAULT_TTS_VOICE :=
  ⟨by decide, (C10_tts_voice_supported "tts-1" "ash" "Hi" "" "mp3" 1).2.2 (by decide)⟩

/-- C8: for a reasoning-family model, `ChatCompletionParameters` forces
`temperature = 1.0` and drops `top_p`, and `ResponseParameters` clears
both and installs the reasoning configuration (defaulting to medium
effort) - in all cases independently of the user-supplied values; for
every other model the user-supplied `temperature` and `top_p` are kept
as given.  The substitution happens once at construction and nothing
overrides it afterwards: handling a new conversation message and
toggling pause both preserve the `temperature` and `top_p` fields. -/
theorem C8_reasoning_sampling_fixed
    (messages : Option (List Message)) (model persona instructions : String)
    (fp pp : Option ℚ) (seed : Option Int) (temperature top_p : Option ℚ)
    (cs ci ch : Option Nat) (paused : Bool)
    (input : Option InputVal) (prid : Option String)
    (reasoning : Option ReasoningCfg) (history : Option (List String))
    (conv : ResponseParameters) (msg : InboundMessage) (prov : ProviderResult)
    (hist : Registry) (view : ButtonView) (user : Nat) :
    ((mkChatCompletionParameters messages model persona fp pp seed temperature top_p
        cs ci ch paused).temperature
      = if model ∈ REASONING_MODELS then some 1 else temperature) ∧
    ((mkChatCompletionParameters messages model persona fp pp seed temperature top_p
        cs ci ch paused).top_p
      = if model ∈ REASONING_MODELS then none else top_p) ∧
    ((mkResponseParameters model instructions input prid fp pp seed temperature top_p
        reasoning cs ci ch paused history).temperature
      = if model ∈ REASONING_MODELS then none else temperature) ∧
    ((mkResponseParameters model instructions input prid fp pp seed temperature top_p
        reasoning cs ci ch paused history).top_p
      = if model ∈ REASONING_MODELS then none else top_p) ∧
    ((mkResponseParameters model instructions input prid fp pp seed temperature top_p
        reasoning cs ci ch paused history).reasoning
      = if model ∈ REASONING_MODELS then
          some (reasoning.getD { effort := REASONING_EFFORT_MEDIUM }) else none) ∧
    ((handle_new_message_in_conversation conv msg prov).1.temperature = conv.temperature) ∧
    ((handle_new_message_in_conversation conv msg prov).1.top_p = conv.top_p) ∧
    ((play_pause_button hist view user).1.map (fun e => (e.2.temperature, e.2.top_p))
      = hist.map (fun e => (e.2.temperature, e.2.top_p))) := by
  refine ⟨rfl, rfl, rfl, rfl, rfl, ?_, ?_, ?_⟩
  · cases prov with
    | ok r => cases r; rfl
    | error e => rfl
  · cases prov with
    | ok r => cases r; rfl
    | error e => rfl
  · unfold play_pause_button
    split_ifs with huser
    · rfl
    · cases hfind : hist.find? (fun e => e.1 == view.conversation_id) with
      | none => rfl
      | some entry =>
          cases entry with
          | mk k conv0 =>
              simp only [List.map_map]
              refine List.map_congr_left ?_
              intro e _
              by_cases hk : (e.1 == view.conversation_id) = true <;>
                simp [Function.comp, hk]

/-- C4: chunking splits a text into consecutive non-overlapping slices
of at most the per-segment cap whose in-order concatenation is the
input, an empty input yields zero segments and no empty segment is
produced, and segments are titled "Response" / "Response (Part k)";
in particular chunking "This is a test." with cap 4 yields the four
stated bodies with the four stated titles. -/
theorem C4_chunking :
    (∀ (text : String) (size : Nat), 0 < size →
      ((chunk_text text size).map String.data).flatten = text.data ∧
      (∀ c ∈ chunk_text text size, c.length ≤ size ∧ c ≠ "") ∧
      (text = "" → chunk_text text size = [])) ∧
    chunk_text "This is a test." 4 = ["This", " is ", "a te", "st."] ∧
    ((chunk_text "This is a test." 4).enum.map (fun p => responseTitle (p.1 + 1)))
      = ["Response", "Response (Part 2)", "Response (Part 3)", "Response (Part 4)"] := by
  refine ⟨?_, by decide, by decide⟩
  intro text size hsize
  refine ⟨?_, ?_, ?_⟩
  · rw [chunk_text, List.map_map]
    have hid : String.data ∘ String.mk = id := rfl
    rw [hid, List.map_id]
    exact chunkFuel_flatten size hsize text.length text.data (Nat.le_refl _)
  · intro c hc
    rw [chunk_text, List.mem_map] at hc
    obtain ⟨l, hl, rfl⟩ := hc
    obtain ⟨hlen, hne⟩ := chunkFuel_mem size hsize text.length text.data l hl
    refine ⟨hlen, ?_⟩
    intro hcontra
    exact hne (congrArg String.data hcontra)
  · intro he
    subst he
    rfl

theorem C4_witness :
    0 < 4 ∧ ((chunk_text "This is a test." 4).map String.data).flatten
      = "This is a test.".data :=
  ⟨by decide, (C4_chunking.1 "This is a test." 4 (by decide)).1⟩

/-- Concrete conversation used for C2: an active Responses-API
conversation started by user 1 in channel 5 that has already produced
two responses, so its stored response-id history is ["r1", "r2"]. -/
def exConvC2 : ResponseParameters :=
  mkResponseParameters "gpt-5.1" "You are a helpful assistant."
    (some (InputVal.blocks [])) (some "r2") none none none none none none
    (some 1) (some 123) (some 5) false (some ["r1", "r2"])

/-- C2: evaluation of the code at the failing input.  The originator
activates regenerate on an active conversation with stored history
["r1", "r2"]; the handler answers with its generic caught-exception
message (the `conversation.messages` attribute access fails, since
`ResponseParameters` has no such attribute), the registry is returned
unchanged - in particular nothing is popped from `response_id_history`
and `previous_response_id` still names the most recent response - and
the result does not depend on the channel history or on any provider
call, so no regeneration request is ever issued. -/
theorem C2_regenerate_never_rolls_back :
    regenerate_button [(123, exConvC2)] { conversation_starter := 1, conversation_id := 123 }
        1 [] (Except.ok ("r3", "regenerated text"))
      = ([(123, exConvC2)], RegenOutcome.handlerError) ∧
    exConvC2.response_id_history = ["r1", "r2"] ∧
    exConvC2.previous_response_id = some "r2" ∧
    (∀ (ch : List InboundMessage) (prov : ProviderResult),
      regenerate_button [(123, exConvC2)] { conversation_starter := 1, conversation_id := 123 }
          1 ch prov
        = ([(123, exConvC2)], RegenOutcome.handlerError)) := by
  refine ⟨by decide, by decide, by decide, ?_⟩
  intro ch prov
  unfold regenerate_button
  decide

/-- C5 (amended): for every registered conversation - in particular one
whose stored history holds fewer than two turns - activating regenerate
as the conversation starter fails with the handler's generic error
message (not with a dedicated InsufficientHistory condition, which no
code path produces), leaves the registry unchanged, and issues no
generation call: the result is the same for every channel history and
every provider oracle. -/
theorem C5_regenerate_generic_error (hist : Registry) (view : ButtonView)
    (ch : List InboundMessage) (prov : ProviderResult)
    (hkey : containsKey hist view.conversation_id = true) :
    regenerate_button hist view view.conversation_starter ch prov
      = (hist, RegenOutcome.handlerError) := by
  unfold regenerate_button
  simp [hkey]

/-- Conversation used for C5: freshly started (no completed turn pair,
empty response-id history). -/
def exConvC5 : ResponseParameters :=
  mkResponseParameters "gpt-5.1" "persona" (some (InputVal.str "hello")) none
    none none none none none none (some 2) (some 55) (some 9) false (some [])

theorem C5_counterexample :
    (regenerate_button [(55, exConvC5)] { conversation_starter := 2, conversation_id := 55 }
        2 [] (Except.ok ("rX", "text"))).2 = RegenOutcome.handlerError ∧
    RegenOutcome.handlerError ≠ RegenOutcome.insufficientHistory := by
  exact ⟨by decide, by decide⟩

theorem C5_witness :
    containsKey [(55, exConvC5)] 55 = true ∧
    regenerate_button [(55, exConvC5)] { conversation_starter := 2, conversation_id := 55 }
        2 [] (Except.ok ("rX", "text"))
      = ([(55, exConvC5)], RegenOutcome.handlerError) :=
  ⟨by decide,
   C5_regenerate_generic_error [(55, exConvC5)]
     { conversation_starter := 2, conversation_id := 55 } [] (Except.ok ("rX", "text"))
     (by decide)⟩

/-- C7 (amended): the button-based mutating operations (regenerate,
pause/resume, stop) activated by any identity other than the
conversation starter fail with the handler's "not allowed" rejection -
an outcome distinct from NotFound, checked before the registry is even
consulted and revealing nothing - and leave the registry unchanged.  An
inbound message from a non-originator, however, matches no conversation
and is silently ignored: the registry is unchanged and no reply (in
particular no "not allowed" notice) is sent. -/
theorem C7_unauthorized_guards (hist : Registry) (view : ButtonView) (user : Nat)
    (ch : List InboundMessage) (prov : ProviderResult) (botId : Nat) (msg : InboundMessage)
    (huser : user ≠ view.conversation_starter) :
    regenerate_button hist view user ch prov = (hist, RegenOutcome.notAllowed) ∧
    play_pause_button hist view user = (hist, PauseOutcome.notAllowed) ∧
    stop_button hist view user = (hist, StopOutcome.notAllowed) ∧
    RegenOutcome.notAllowed ≠ RegenOutcome.notFound ∧
    PauseOutcome.notAllowed ≠ PauseOutcome.notFound ∧
    StopOutcome.notAllowed ≠ StopOutcome.notFound ∧
    ((msg.authorId == botId) = false →
      (∀ e ∈ hist, conversationMatches msg e.2 = false) →
      on_message hist botId msg prov = (hist, OnMessageResult.noMatch) ∧
      sendsReply OnMessageResult.noMatch = false) := by
  refine ⟨?_, ?_, ?_, by decide, by decide, by decide, ?_⟩
  · unfold regenerate_button
    simp [huser]
  · unfold play_pause_button
    simp [huser]
  · unfold stop_button
    simp [huser]
  · intro hbot hnone
    have hfind : hist.find? (fun e => conversationMatches msg e.2) = none := by
      rw [List.find?_eq_none]
      intro x hx
      simp [hnone x hx]
    unfold on_message
    simp [hbot, hfind, sendsReply]

/-- Conversation used for C7: started by user 1 in channel 5. -/
def exConvC7 : ResponseParameters :=
  mkResponseParameters "gpt-5.1" "persona" (some (InputVal.str "hi")) (some "r1")
    none none none none none none (some 1) (some 77) (some 5) false (some ["r1"])

theorem C7_counterexample :
    on_message [(77, exConvC7)] 0
        { authorId := 2, channelId := 5, content := "my message", attachments := [] }
        (Except.ok ("r9", "ok"))
      = ([(77, exConvC7)], OnMessageResult.noMatch) ∧
    sendsReply OnMessageResult.noMatch = false := by
  exact ⟨by decide, rfl⟩

theorem C7_witness :
    (2 : Nat) ≠ (1 : Nat) ∧
    regenerate_button [(77, exConvC7)] { conversation_starter := 1, conversation_id := 77 }
        2 [] (Except.ok ("r9", "ok")) = ([(77, exConvC7)], RegenOutcome.notAllowed) ∧
    play_pause_button [(77, exConvC7)] { conversation_starter := 1, conversation_id := 77 } 2
      = ([(77, exConvC7)], PauseOutcome.notAllowed) ∧
    stop_button [(77, exConvC7)] { conversation_starter := 1, conversation_id := 77 } 2
      = ([(77, exConvC7)], StopOutcome.notAllowed) :=
  ⟨by decide,
   (C7_unauthorized_guards [(77, exConvC7)] { conversation_starter := 1, conversation_id := 77 }
     2 [] (Except.ok ("r9", "ok")) 0
     { authorId := 2, channelId := 5, content := "my message", attachments := [] }
     (by decide)).1,
   (C7_unauthorized_guards [(77, exConvC7)] { conversation_starter := 1, conversation_id := 77 }
     2 [] (Except.ok ("r9", "ok")) 0
     { authorId := 2, channelId := 5, content := "my message", attachments := [] }
     (by decide)).2.1,
   (C7_unauthorized_guards [(77, exConvC7)] { conversation_starter := 1, conversation_id := 77 }
     2 [] (Except.ok ("r9", "ok")) 0
     { authorId := 2, channelId := 5, content := "my message", attachments := [] }
     (by decide)).2.2.1⟩

/-- C3: starting a conversation while one matching the same author and
channel is registered is rejected with the AlreadyActive error and
leaves the registry exactly as it was (no new conversation is
registered, no merge); and a successful start does register a
conversation matching that author and channel, so an immediate second
start attempt is rejected. -/
theorem C3_second_start_rejected :
    (∀ (hist : Registry) (author channelId interactionId : Nat)
       (prompt persona model : String) (att : Option String)
       (fp pp : Option ℚ) (seed : Option Int) (t tp : Option ℚ) (prov : ProviderResult),
      (∃ e ∈ hist, e.2.conversation_starter = some author ∧ e.2.channel_id = some channelId) →
      converse hist author channelId interactionId prompt persona model att fp pp seed t tp prov
        = (hist, ConverseOutcome.alreadyActive)) ∧
    (∀ (hist : Registry) (author channelId interactionId : Nat)
       (prompt persona model : String) (att : Option String)
       (fp pp : Option ℚ) (seed : Option Int) (t tp : Option ℚ) (prov : ProviderResult)
       (rid : String),
      (converse hist author channelId interactionId prompt persona model att fp pp seed t tp prov).2
        = ConverseOutcome.started rid →
      ∃ e ∈ (converse hist author channelId interactionId prompt persona model
          att fp pp seed t tp prov).1,
        e.2.conversation_starter = some author ∧ e.2.channel_id = some channelId) := by
  constructor
  · intro hist author channelId interactionId prompt persona model att fp pp seed t tp prov hex
    have hany : (hist.any (fun e => (e.2.conversation_starter == some author) &&
        (e.2.channel_id == some channelId))) = true := by
      rw [List.any_eq_true]
      obtain ⟨e, he, h1, h2⟩ := hex
      exact ⟨e, he, by simp [h1, h2]⟩
    unfold converse
    rw [if_pos hany]
  · intro hist author channelId interactionId prompt persona model att fp pp seed t tp prov rid hstart
    by_cases hany : (hist.any (fun e => (e.2.conversation_starter == some author) &&
        (e.2.channel_id == some channelId))) = true
    · unfold converse at hstart
      rw [if_pos hany] at hstart
      simp at hstart
    · unfold converse at hstart ⊢
      rw [if_neg hany] at hstart ⊢
      cases prov with
      | error e => simp at hstart
      | ok r =>
          cases r with
          | mk rid2 out =>
              exact ⟨_, List.mem_append_right _ (List.mem_singleton_self _), rfl, rfl⟩

/-- Registry used by the C3 witness: the result of one successful
`/converse` start by user 1 in channel 2. -/
def exHistC3 : Registry :=
  (converse [] 1 2 111 "hello" "persona" "gpt-5.1" none none none none none none
    (Except.ok ("r1", "hi"))).1

theorem C3_witness :
    (∃ e ∈ exHistC3, e.2.conversation_starter = some 1 ∧ e.2.channel_id = some 2) ∧
    converse exHistC3 1 2 999 "again" "persona" "gpt-5.1" none none none none none none
        (Except.ok ("r2", "x"))
      = (exHistC3, ConverseOutcome.alreadyActive) :=
  ⟨by decide,
   C3_second_start_rejected.1 exHistC3 1 2 999 "again" "persona" "gpt-5.1"
     none none none none none none (Except.ok ("r2", "x")) (by decide)⟩

theorem find?_toggle_pause (hist : Registry) (msg : InboundMessage) (cid : Nat)
    (conv : ResponseParameters)
    (hfind : hist.find? (fun e => conversationMatches msg e.2) = some (cid, conv)) :
    (hist.map (fun e => if e.1 == cid then (e.1, { e.2 with paused := !e.2.paused }) else e)).find?
        (fun e => conversationMatches msg e.2)
      = some (cid, { conv with paused := !conv.paused }) := by
  rw [List.find?_map]
  have hcomp : ((fun e : Nat × ResponseParameters => conversationMatches msg e.2) ∘
      (fun e : Nat × ResponseParameters =>
        if e.1 == cid then (e.1, { e.2 with paused := !e.2.paused }) else e))
      = (fun e : Nat × ResponseParameters => conversationMatches msg e.2) := by
    funext e
    by_cases hk : (e.1 == cid) = true <;> simp [Function.comp, hk, conversationMatches]
  rw [hcomp, hfind]
  simp

theorem on_message_found (hist : Registry) (botId : Nat) (msg : InboundMessage)
    (cid : Nat) (c : ResponseParameters) (prov : ProviderResult)
    (hbot : (msg.authorId == botId) = false)
    (hfind : hist.find? (fun e => conversationMatches msg e.2) = some (cid, c)) :
    on_message hist botId msg prov
      = if c.paused then (hist, OnMessageResult.droppedPaused)
        else (hist.map (fun e => if e.1 == cid then
            (e.1, (handle_new_message_in_conversation c msg prov).1) else e),
          OnMessageResult.handled (handle_new_message_in_conversation c msg prov).2) := by
  unfold on_message
  simp only [hbot, Bool.false_eq_true, if_false, hfind]

/-- C6: an inbound message from the originator in the conversation's
channel is dropped while the conversation is paused - the registry is
returned unchanged (no response identifier is appended) and the result
is the same for every provider oracle, so the provider is never invoked.
Toggling the pause control as the starter flips the flag back to false,
after which the same inbound message is processed normally: the provider
response id is appended to the conversation's history and a reply is
produced. -/
theorem C6_paused_drops (hist : Registry) (botId : Nat) (msg : InboundMessage)
    (cid : Nat) (conv : ResponseParameters)
    (hbot : (msg.authorId == botId) = false)
    (hfind : hist.find? (fun e => conversationMatches msg e.2) = some (cid, conv))
    (hpaused : conv.paused = true) :
    (∀ prov : ProviderResult, on_message hist botId msg prov = (hist, OnMessageResult.droppedPaused)) ∧
    ((play_pause_button hist { conversation_starter := msg.authorId, conversation_id := cid }
        msg.authorId).1
      = hist.map (fun e => if e.1 == cid then (e.1, { e.2 with paused := !e.2.paused }) else e)) ∧
    (∀ (rid text : String),
      on_message
          (hist.map (fun e => if e.1 == cid then (e.1, { e.2 with paused := !e.2.paused }) else e))
          botId msg (Except.ok (rid, text))
        = ((hist.map (fun e => if e.1 == cid then (e.1, { e.2 with paused := !e.2.paused }) else e)).map
             (fun e => if e.1 == cid then
               (e.1, { conv with
                       paused := false,
                       previous_response_id := some rid,
                       response_id_history := conv.response_id_history ++ [rid] }) else e),
           OnMessageResult.handled (append_response_embeds []
             (if text = "" then "No response." else text)))) := by
  refine ⟨?_, ?_, ?_⟩
  · intro prov
    unfold on_message
    simp [hbot, hfind, hpaused]
  · unfold play_pause_button
    have hmem : (cid, conv) ∈ hist := List.mem_of_find?_eq_some hfind
    have hsome : (hist.find? (fun e => e.1 == cid)).isSome := by
      rw [List.find?_isSome]
      exact ⟨(cid, conv), hmem, by simp⟩
    rw [if_neg (by simp)]
    cases hkey : hist.find? (fun e => e.1 == cid) with
    | none => rw [hkey] at hsome; simp at hsome
    | some entry => simp
  · intro rid text
    have htog := find?_toggle_pause hist msg cid conv hfind
    have hbp : (!conv.paused) = false := by
      rw [hpaused]
      rfl
    rw [hbp] at htog
    rw [on_message_found _ botId msg cid _ _ hbot htog]
    rfl

/-- Conversation used by the C6 witness: started by user 1 in channel 5
and currently paused. -/
def exConvC6 : ResponseParameters :=
  mkResponseParameters "gpt-5.1" "persona" (some (InputVal.blocks [])) (some "r1")
    none none none none none none (some 1) (some 7) (some 5) true (some ["r1"])

theorem C6_witness :
    ((1 : Nat) == (0 : Nat)) = false ∧
    ([(7, exConvC6)] : Registry).find?
        (fun e => conversationMatches
          { authorId := 1, channelId := 5, content := "hi", attachments := [] } e.2)
      = some (7, exConvC6) ∧
    exConvC6.paused = true ∧
    on_message [(7, exConvC6)] 0
        { authorId := 1, channelId := 5, content := "hi", attachments := [] }
        (Except.ok ("r2", "hello"))
      = ([(7, exConvC6)], OnMessageResult.droppedPaused) :=
  ⟨by decide, by decide, by decide,
   (C6_paused_drops [(7, exConvC6)] 0
     { authorId := 1, channelId := 5, content := "hi", attachments := [] }
     7 exConvC6 (by decide) (by decide) (by decide)).1 (Except.ok ("r2", "hello"))⟩

theorem map_replace_self (hist : Registry) (cid : Nat) (conv : ResponseParameters)
    (hnodup : (hist.map Prod.fst).Nodup) (hmem : (cid, conv) ∈ hist) :
    hist.map (fun e => if e.1 == cid then (e.1, conv) else e) = hist := by
  induction hist with
  | nil => rfl
  | cons x xs ih =>
      rw [List.map_cons, List.nodup_cons] at hnodup
      obtain ⟨hx, hxs⟩ := hnodup
      rcases List.mem_cons.mp hmem with heq | hmem2
      · subst heq
        have htail : xs.map (fun e => if e.1 == cid then (e.1, conv) else e) = xs := by
          have hpt : ∀ e ∈ xs, (if e.1 == cid then (e.1, conv) else e) = e := by
            intro e he
            have hne : e.1 ≠ cid := by
              intro hc
              exact hx (List.mem_map.mpr ⟨e, he, hc⟩)
            simp [hne]
          have hcongr := List.map_congr_left hpt
          simpa using hcongr
        simp only [List.map_cons, htail, ite_self]
      · have hxcid : (x.1 == cid) = false := by
          rw [beq_eq_false_iff_ne]
          intro hc
          apply hx
          rw [hc]
          exact List.mem_map.mpr ⟨(cid, conv), hmem2, rfl⟩
        simp only [List.map_cons, hxcid, Bool.false_eq_true, if_false]
        rw [ih hxs hmem2]

/-- C9: when the AI-provider call raises an error, the error is caught
at the boundary, formatted via `format_openai_error` into a
human-readable message, and surfaced as a red `Error` reply, and the
conversation state - `previous_response_id`, `response_id_history`, the
paused flag and registry membership - is exactly what it was before the
failed call; `converse` likewise commits nothing when the opening call
fails (registry returned as-is, outcome either the AlreadyActive
rejection or the formatted provider error).  The legacy
chat-completions thread cog makes no provider call at all: its thread
registration raises `TypeError` inside the `ChatCompletionParameters`
construction with state untouched, and its message handler raises at
the owner guard with the thread histories unchanged, so no partial
update can be committed on that path either. -/
theorem C9_provider_error_state (conv : ResponseParameters) (msg : InboundMessage)
    (err : PyError) (hist : Registry) (botId cid : Nat)
    (hbot : (msg.authorId == botId) = false)
    (hfind : hist.find? (fun e => conversationMatches msg e.2) = some (cid, conv))
    (hpaused : conv.paused = false)
    (hnodup : (hist.map Prod.fst).Nodup) :
    handle_new_message_in_conversation conv msg (Except.error err)
      = (conv, [{ title := "Error", description := format_openai_error err,
                  color := Colour.red }]) ∧
    on_message hist botId msg (Except.error err)
      = (hist, OnMessageResult.handled
          [{ title := "Error", description := format_openai_error err,
             color := Colour.red }]) ∧
    (∀ (hist2 : Registry) (author channelId interactionId : Nat)
       (prompt persona model : String) (att : Option String)
       (fp pp : Option ℚ) (seed : Option Int) (t tp : Option ℚ),
      (converse hist2 author channelId interactionId prompt persona model att fp pp seed t tp
          (Except.error err)).1 = hist2 ∧
      ((converse hist2 author channelId interactionId prompt persona model att fp pp seed t tp
          (Except.error err)).2 = ConverseOutcome.alreadyActive ∨
       (converse hist2 author channelId interactionId prompt persona model att fp pp seed t tp
          (Except.error err)).2 = ConverseOutcome.apiError (format_openai_error err))) ∧
    (∀ (histories : List (Nat × List Message))
       (thread_params : List (Nat × ChatCompletionParameters)) (channelId : Nat),
      (chatgpt_on_message histories thread_params channelId).1 = histories) ∧
    (∀ (histories : List (Nat × List Message))
       (thread_params : List (Nat × ChatCompletionParameters)) (threadId : Nat),
      chatgpt_on_thread_create histories thread_params threadId
        = (histories, thread_params, ChatGPTRaise.typeError)) := by
  refine ⟨rfl, ?_, ?_, ?_, fun histories thread_params threadId => rfl⟩
  · rw [on_message_found hist botId msg cid conv (Except.error err) hbot hfind]
    rw [if_neg (by rw [hpaused]; exact Bool.false_ne_true)]
    have hmem : (cid, conv) ∈ hist := List.mem_of_find?_eq_some hfind
    have hm : hist.map (fun e => if e.1 == cid then
        (e.1, (handle_new_message_in_conversation conv msg (Except.error err)).1) else e) = hist :=
      map_replace_self hist cid conv hnodup hmem
    rw [hm]
    rfl
  · intro hist2 author channelId interactionId prompt persona model att fp pp seed t tp
    unfold converse
    by_cases hany : (hist2.any (fun e => (e.2.conversation_starter == some author) &&
        (e.2.channel_id == some channelId))) = true
    · rw [if_pos hany]
      exact ⟨rfl, Or.inl rfl⟩
    · rw [if_neg hany]
      exact ⟨rfl, Or.inr rfl⟩
  · intro histories thread_params channelId
    unfold chatgpt_on_message
    cases htp : thread_params.find? (fun e => e.1 == channelId) <;> rfl

/-- Provider error used by the C9 witness. -/
def exErrC9 : PyError :=
  { message := some "Rate limit exceeded", strRepr := "Rate limit exceeded",
    status_code := some 429, etype := none, code := none, param := none,
    className := "RateLimitError",
    extracted := { message := none, etype := none, code := none, param := none } }

/-- Conversation used by the C9 witness: started by user 1 in channel 5
and not paused. -/
def exConvC9 : ResponseParameters :=
  mkResponseParameters "gpt-5.1" "persona" (some (InputVal.blocks [])) (some "r1")
    none none none none none none (some 1) (some 9) (some 5) false (some ["r1"])

theorem C9_witness :
    ((1 : Nat) == (0 : Nat)) = false ∧
    ([(9, exConvC9)] : Registry).find?
        (fun e => conversationMatches
          { authorId := 1, channelId := 5, content := "hi", attachments := [] } e.2)
      = some (9, exConvC9) ∧
    exConvC9.paused = false ∧
    (([(9, exConvC9)] : Registry).map Prod.fst).Nodup ∧
    on_message [(9, exConvC9)] 0
        { authorId := 1, channelId := 5, content := "hi", attachments := [] }
        (Except.error exErrC9)
      = ([(9, exConvC9)], OnMessageResult.handled
          [{ title := "Error", description := format_openai_error exErrC9,
             color := Colour.red }]) :=
  ⟨by decide, by decide, by decide, by decide,
   (C9_provider_error_state exConvC9
     { authorId := 1, channelId := 5, content := "hi", attachments := [] }
     exErrC9 [(9, exConvC9)] 0 9 (by decide) (by decide) (by decide) (by decide)).2.1⟩

theorem usedChars_append (a b : List Embed) :
    usedChars (a ++ b) = usedChars a + usedChars b := by
  simp [usedChars]

theorem chunk_text_flatten_data (t : String) (size : Nat) (hsize : 0 < size) :
    ((chunk_text t size).map String.data).flatten = t.data := by
  rw [chunk_text, List.map_map]
  have hid : String.data ∘ String.mk = id := rfl
  rw [hid, List.map_id]
  exact chunkFuel_flatten size hsize t.length t.data (Nat.le_refl _)

theorem sum_chunk_lengths (t : String) (size : Nat) (hsize : 0 < size) :
    ((chunk_text t size).map String.length).sum = t.length := by
  have hdata : (chunk_text t size).map String.length = ((chunk_text t size).map String.data).map List.length := by
    rw [List.map_map]
    rfl
  rw [hdata, ← List.length_flatten, chunk_text_flatten_data t size hsize]
  rfl

theorem chunk_text_count_le_two (t : String) (hlen : t.length ≤ 7000) :
    (chunk_text t CHUNK_TEXT_SIZE).length ≤ 2 := by
  rw [chunk_text, List.length_map]
  refine chunkFuel_length_le CHUNK_TEXT_SIZE (by decide) t.length t.data 2 (Nat.le_refl _) ?_
  show t.data.length ≤ CHUNK_TEXT_SIZE * 2
  have hd : t.data.length = t.length := rfl
  rw [hd]
  unfold CHUNK_TEXT_SIZE
  omega

theorem responseTitle_one_length : (responseTitle 1).length = 8 := by decide

theorem responseTitle_two_length : (responseTitle 2).length = 17 := by decide

theorem usedChars_response_embeds (cs : List String) (h2 : cs.length ≤ 2) :
    usedChars (cs.enum.map (fun p =>
        ({ title := responseTitle (p.1 + 1), description := p.2,
           color := Colour.blue } : Embed)))
      ≤ (cs.map String.length).sum + 25 := by
  match cs with
  | [] => simp [usedChars]
  | [a] =>
      simp only [List.enum, List.enumFrom, List.map_cons, List.map_nil, usedChars, embedChars,
        List.sum_cons, List.sum_nil]
      have h1 : (responseTitle (0 + 1)).length = 8 := responseTitle_one_length
      omega
  | [a, b] =>
      simp only [List.enum, List.enumFrom, List.map_cons, List.map_nil, usedChars, embedChars,
        List.sum_cons, List.sum_nil]
      have h1 : (responseTitle (0 + 1)).length = 8 := responseTitle_one_length
      have h2l : (responseTitle (0 + 1 + 1)).length = 17 := responseTitle_two_length
      omega
  | a :: b :: c :: rest =>
      simp at h2

theorem truncationNotice_length : truncationNotice.length = 64 := by decide

theorem cappedResponseText_big (embeds : List Embed) (response_text : String)
    (h : usedChars embeds ≤ 5850)
    (hbig : (response_text.length : Int) > 6000 - (usedChars embeds : Int) - 100) :
    (cappedResponseText embeds response_text).length = 5850 - usedChars embeds + 64 ∧
    truncationNotice.data <:+ (cappedResponseText embeds response_text).data := by
  unfold cappedResponseText
  rw [if_pos hbig]
  have hk : (0 : Int) ≤ 6000 - (usedChars embeds : Int) - 100 - 50 := by omega
  constructor
  · rw [String.length_append, truncationNotice_length]
    unfold pySliceTo
    rw [if_pos hk]
    have hlen : (String.mk (response_text.data.take
        ((6000 - (usedChars embeds : Int) - 100 - 50).toNat))).length
        = min ((6000 - (usedChars embeds : Int) - 100 - 50).toNat) response_text.data.length := by
      show (response_text.data.take _).length = _
      rw [List.length_take]
    rw [hlen]
    have htext : response_text.data.length = response_text.length := rfl
    have htoNat : (6000 - (usedChars embeds : Int) - 100 - 50).toNat = 5850 - usedChars embeds := by
      omega
    rw [htoNat, htext]
    omega
  · rw [String.data_append]
    exact List.suffix_append _ _

theorem cappedResponseText_small (embeds : List Embed) (response_text : String)
    (hsmall : ¬ (response_text.length : Int) > 6000 - (usedChars embeds : Int) - 100) :
    cappedResponseText embeds response_text = response_text := by
  unfold cappedResponseText
  rw [if_neg hsmall]

/-- C1 (amended): when the pre-existing embeds use at most 5850
characters across their titles and descriptions, the total character
count over all embed titles and descriptions after
`append_response_embeds` stays within the aggregate cap of 6000; and
whenever the input text exceeds the remaining budget
(6000 minus existing usage minus the 100-character reserved overhead),
the text is cut and the fixed truncation notice appended, so the
concatenation of the appended segment bodies ends with the truncation
notice (the final segment alone ends with it only when the notice does
not straddle a 3500-character chunk boundary). -/
theorem C1_aggregate_cap (embeds : List Embed) (response_text : String)
    (h : usedChars embeds ≤ 5850) :
    usedChars (append_response_embeds embeds response_text) ≤ 6000 ∧
    ((response_text.length : Int) > 6000 - (usedChars embeds : Int) - 100 →
      truncationNotice.data <:+
        (((append_response_embeds embeds response_text).drop embeds.length).map
          (fun e => e.description.data)).flatten) := by
  constructor
  · unfold append_response_embeds
    rw [usedChars_append]
    have hcap : (cappedResponseText embeds response_text).length + usedChars embeds ≤ 5914 := by
      by_cases hbig : (response_text.length : Int) > 6000 - (usedChars embeds : Int) - 100
      · have := (cappedResponseText_big embeds response_text h hbig).1
        omega
      · rw [cappedResponseText_small embeds response_text hbig]
        omega
    have hcount : (chunk_text (cappedResponseText embeds response_text) CHUNK_TEXT_SIZE).length ≤ 2 :=
      chunk_text_count_le_two _ (by omega)
    have hnew := usedChars_response_embeds
      (chunk_text (cappedResponseText embeds response_text) CHUNK_TEXT_SIZE) hcount
    have hsum := sum_chunk_lengths (cappedResponseText embeds response_text) CHUNK_TEXT_SIZE
      (by decide)
    rw [hsum] at hnew
    omega
  · intro hbig
    unfold append_response_embeds
    rw [List.drop_left, List.map_map]
    have hmapeq : ((fun e : Embed => e.description.data) ∘ (fun p : Nat × String =>
        ({ title := responseTitle (p.1 + 1), description := p.2,
           color := Colour.blue } : Embed)))
        = (String.data ∘ Prod.snd) := rfl
    rw [hmapeq, ← List.map_map, List.enum_map_snd]
    rw [chunk_text_flatten_data _ CHUNK_TEXT_SIZE (by decide)]
    exact (cappedResponseText_big embeds response_text h hbig).2

/-- Existing embeds for the C1 witness: the design document's worked
example of 3000 characters already used. -/
def exEmbedsC1w : List Embed :=
  [{ title := "", description := String.mk (List.replicate 3000 'x'), color := Colour.green }]

/-- Input text for the C1 witness: 5000 characters. -/
def exTextC1w : String := String.mk (List.replicate 5000 'y')

theorem length_mk_replicate (n : Nat) (c : Char) :
    (String.mk (List.replicate n c)).length = n := by
  show (List.replicate n c).length = n
  exact List.length_replicate n c

theorem exC1w_used : usedChars exEmbedsC1w = 3000 := by
  simp only [exEmbedsC1w, usedChars, List.map_cons, List.map_nil, List.sum_cons, List.sum_nil,
    embedChars, length_mk_replicate]
  rfl

theorem exC1w_textlen : exTextC1w.length = 5000 :=
  length_mk_replicate 5000 'y'

theorem C1_witness :
    usedChars exEmbedsC1w ≤ 5850 ∧
    ((exTextC1w.length : Int) > 6000 - (usedChars exEmbedsC1w : Int) - 100) ∧
    usedChars (append_response_embeds exEmbedsC1w exTextC1w) ≤ 6000 ∧
    truncationNotice.data <:+
      (((append_response_embeds exEmbedsC1w exTextC1w).drop exEmbedsC1w.length).map
        (fun e => e.description.data)).flatten :=
  ⟨by rw [exC1w_used]; omega,
   by rw [exC1w_used, exC1w_textlen]; decide,
   (C1_aggregate_cap exEmbedsC1w exTextC1w (by rw [exC1w_used]; omega)).1,
   (C1_aggregate_cap exEmbedsC1w exTextC1w (by rw [exC1w_used]; omega)).2
     (by rw [exC1w_used, exC1w_textlen]; decide)⟩

theorem chunkFuel_fuel_irrel (size : Nat) (hsize : 0 < size) :
    ∀ (fuel1 : Nat) (l : List Char) (fuel2 : Nat), l.length ≤ fuel1 → l.length ≤ fuel2 →
      chunkFuel size fuel1 l = chunkFuel size fuel2 l := by
  intro fuel1
  induction fuel1 with
  | zero =>
      intro l fuel2 h1 h2
      cases l with
      | nil => cases fuel2 <;> rfl
      | cons c cs => simp at h1
  | succ m ih =>
      intro l fuel2 h1 h2
      cases l with
      | nil => cases fuel2 <;> rfl
      | cons c cs =>
          cases fuel2 with
          | zero => simp at h2
          | succ k =>
              simp only [chunkFuel]
              congr 1
              apply ih
              · simp only [List.length_drop, List.length_cons] at *
                omega
              · simp only [List.length_drop, List.length_cons] at *
                omega

theorem chunkFuel_step (size : Nat) (hsize : 0 < size) (fuel : Nat) (l : List Char)
    (hl : l ≠ []) (hfuel : l.length ≤ fuel) :
    chunkFuel size fuel l
      = l.take size :: chunkFuel size (l.drop size).length (l.drop size) := by
  cases l with
  | nil => exact absurd rfl hl
  | cons c cs =>
      cases fuel with
      | zero => simp at hfuel
      | succ m =>
          simp only [chunkFuel]
          congr 1
          apply chunkFuel_fuel_irrel size hsize
          · simp only [List.length_drop, List.length_cons] at *
            omega
          · exact Nat.le_refl _

/-- Existing embeds for the C1 counterexample: 5950 characters already
used (so the Python slice bound `remaining_chars - 50` is negative and
fails to truncate). -/
def exEmbedsC1 : List Embed :=
  [{ title := "", description := String.mk (List.replicate 5950 'x'), color := Colour.green }]

/-- Input text for the C1 counterexample: 10546 characters (chosen so
the capped text is 10510 characters and the final 3500-character chunk
boundary falls inside the truncation notice). -/
def exTextC1 : String := String.mk (List.replicate 10546 'y')

theorem exC1_notice_data_length : truncationNotice.data.length = 64 := by decide

theorem exC1_used : usedChars exEmbedsC1 = 5950 := by
  simp only [exEmbedsC1, usedChars, List.map_cons, List.map_nil, List.sum_cons, List.sum_nil,
    embedChars, length_mk_replicate]
  rfl

theorem exC1_textlen : exTextC1.length = 10546 :=
  length_mk_replicate 10546 'y'

theorem exC1_capped :
    cappedResponseText exEmbedsC1 exTextC1
      = String.mk (List.replicate 10446 'y') ++ truncationNotice := by
  have hcond : ((exTextC1.length : Int) > 6000 - (usedChars exEmbedsC1 : Int) - 100) := by
    rw [exC1_used, exC1_textlen]
    decide
  unfold cappedResponseText
  rw [if_pos hcond, exC1_used]
  unfold pySliceTo
  rw [if_neg (by decide)]
  have hX : ((exTextC1.length : Int) + (6000 - (((5950 : Nat) : Int)) - 100 - 50)).toNat
      = 10446 := by
    rw [exC1_textlen]
    decide
  rw [hX, show exTextC1.data = List.replicate 10546 'y' from rfl, List.take_replicate]
  rw [show (10446 ⊓ 10546 : Nat) = 10446 from by decide]

theorem exC1_chunks :
    chunk_text (cappedResponseText exEmbedsC1 exTextC1) CHUNK_TEXT_SIZE
      = [String.mk (List.replicate 3500 'y'),
         String.mk (List.replicate 3500 'y'),
         String.mk (List.replicate 3446 'y' ++ truncationNotice.data.take 54),
         String.mk (truncationNotice.data.drop 54)] := by
  rw [exC1_capped, chunk_text]
  have hdata : (String.mk (List.replicate 10446 'y') ++ truncationNotice).data
      = List.replicate 10446 'y' ++ truncationNotice.data := String.data_append _ _
  have hlen : (String.mk (List.replicate 10446 'y') ++ truncationNotice).length = 10510 := by
    rw [String.length_append, truncationNotice_length, length_mk_replicate]
  rw [hdata, hlen, show CHUNK_TEXT_SIZE = 3500 from rfl]
  have hlen0 : (List.replicate 10446 'y' ++ truncationNotice.data).length = 10510 := by
    rw [List.length_append, List.length_replicate, exC1_notice_data_length]
  have hne0 : (List.replicate 10446 'y' ++ truncationNotice.data) ≠ [] := by
    apply List.ne_nil_of_length_pos
    rw [hlen0]
    decide
  have htake0 : (List.replicate 10446 'y' ++ truncationNotice.data).take 3500
      = List.replicate 3500 'y' := by
    rw [List.take_append_eq_append_take, List.take_replicate, List.length_replicate]
    rw [show (3500 ⊓ 10446 : Nat) = 3500 from by decide,
        show (3500 - 10446 : Nat) = 0 from by decide]
    rw [List.take_zero, List.append_nil]
  have hdrop0 : (List.replicate 10446 'y' ++ truncationNotice.data).drop 3500
      = List.replicate 6946 'y' ++ truncationNotice.data := by
    rw [List.drop_append_eq_append_drop, List.drop_replicate, List.length_replicate]
    rw [show (10446 - 3500 : Nat) = 6946 from by decide,
        show (3500 - 10446 : Nat) = 0 from by decide]
    rw [List.drop_zero]
  rw [chunkFuel_step 3500 (by decide) 10510 _ hne0 (by rw [hlen0])]
  rw [htake0, hdrop0]
  have hlen1 : (List.replicate 6946 'y' ++ truncationNotice.data).length = 7010 := by
    rw [List.length_append, List.length_replicate, exC1_notice_data_length]
  have hne1 : (List.replicate 6946 'y' ++ truncationNotice.data) ≠ [] := by
    apply List.ne_nil_of_length_pos
    rw [hlen1]
    decide
  have htake1 : (List.replicate 6946 'y' ++ truncationNotice.data).take 3500
      = List.replicate 3500 'y' := by
    rw [List.take_append_eq_append_take, List.take_replicate, List.length_replicate]
    rw [show (3500 ⊓ 6946 : Nat) = 3500 from by decide,
        show (3500 - 6946 : Nat) = 0 from by decide]
    rw [List.take_zero, List.append_nil]
  have hdrop1 : (List.replicate 6946 'y' ++ truncationNotice.data).drop 3500
      = List.replicate 3446 'y' ++ truncationNotice.data := by
    rw [List.drop_append_eq_append_drop, List.drop_replicate, List.length_replicate]
    rw [show (6946 - 3500 : Nat) = 3446 from by decide,
        show (3500 - 6946 : Nat) = 0 from by decide]
    rw [List.drop_zero]
  rw [chunkFuel_step 3500 (by decide) _ _ hne1 (by rw [hlen1])]
  rw [htake1, hdrop1]
  have hlen2 : (List.replicate 3446 'y' ++ truncationNotice.data).length = 3510 := by
    rw [List.length_append, List.length_replicate, exC1_notice_data_length]
  have hne2 : (List.replicate 3446 'y' ++ truncationNotice.data) ≠ [] := by
    apply List.ne_nil_of_length_pos
    rw [hlen2]
    decide
  have htake2 : (List.replicate 3446 'y' ++ truncationNotice.data).take 3500
      = List.replicate 3446 'y' ++ truncationNotice.data.take 54 := by
    rw [List.take_append_eq_append_take, List.take_replicate, List.length_replicate]
    rw [show (3500 ⊓ 3446 : Nat) = 3446 from by decide,
        show (3500 - 3446 : Nat) = 54 from by decide]
  have hdrop2 : (List.replicate 3446 'y' ++ truncationNotice.data).drop 3500
      = truncationNotice.data.drop 54 := by
    rw [List.drop_append_eq_append_drop, List.drop_replicate, List.length_replicate]
    rw [show (3446 - 3500 : Nat) = 0 from by decide,
        show (3500 - 3446 : Nat) = 54 from by decide]
    rw [List.replicate_zero, List.nil_append]
  rw [chunkFuel_step 3500 (by decide) _ _ hne2 (by rw [hlen2])]
  rw [htake2, hdrop2]
  have hne3 : (truncationNotice.data.drop 54) ≠ [] := by decide
  have hlen3 : (truncationNotice.data.drop 54).length = 10 := by decide
  have htake3 : (truncationNotice.data.drop 54).take 3500 = truncationNotice.data.drop 54 :=
    List.take_of_length_le (by decide)
  have hdrop3 : (truncationNotice.data.drop 54).drop 3500 = [] :=
    List.drop_eq_nil_of_le (by decide)
  rw [chunkFuel_step 3500 (by decide) _ _ hne3 (by rw [hlen3])]
  rw [htake3, hdrop3]
  rfl

theorem responseTitle_three_length : (responseTitle 3).length = 17 := by decide

theorem responseTitle_four_length : (responseTitle 4).length = 17 := by decide

theorem exC1_total :
    usedChars (append_response_embeds exEmbedsC1 exTextC1) = 16519 := by
  unfold append_response_embeds
  rw [exC1_chunks, usedChars_append, exC1_used]
  simp only [List.enum, List.enumFrom, List.map_cons, List.map_nil, usedChars, embedChars,
    List.sum_cons, List.sum_nil]
  have hS12 : (String.mk (List.replicate 3500 'y')).length = 3500 := length_mk_replicate 3500 'y'
  have hS3 : (String.mk (List.replicate 3446 'y' ++ truncationNotice.data.take 54)).length
      = 3500 := by
    show (List.replicate 3446 'y' ++ truncationNotice.data.take 54).length = 3500
    rw [List.length_append, List.length_replicate, List.length_take, exC1_notice_data_length]
    omega
  have hS4 : (String.mk (truncationNotice.data.drop 54)).length = 10 := by decide
  have ht1 : (responseTitle (0 + 1)).length = 8 := responseTitle_one_length
  have ht2 : (responseTitle (0 + 1 + 1)).length = 17 := responseTitle_two_length
  have ht3 : (responseTitle (0 + 1 + 1 + 1)).length = 17 := responseTitle_three_length
  have ht4 : (responseTitle (0 + 1 + 1 + 1 + 1)).length = 17 := responseTitle_four_length
  omega

theorem C1_counterexample :
    ((exTextC1.length : Int) > 6000 - (usedChars exEmbedsC1 : Int) - 100) ∧
    ¬ usedChars (append_response_embeds exEmbedsC1 exTextC1) ≤ 6000 ∧
    (append_response_embeds exEmbedsC1 exTextC1).length = 5 ∧
    ¬ truncationNotice.data <:+
      ((append_response_embeds exEmbedsC1 exTextC1).getLastD
        { title := "", description := "", color := Colour.blue }).description.data := by
  refine ⟨?_, ?_, ?_, ?_⟩
  · rw [exC1_used, exC1_textlen]
    decide
  · rw [exC1_total]
    omega
  · unfold append_response_embeds
    rw [exC1_chunks, List.length_append, List.length_map, List.enum_length]
    rfl
  · unfold append_response_embeds
    rw [exC1_chunks]
    simp only [exEmbedsC1, List.enum, List.enumFrom, List.map_cons, List.map_nil,
      List.cons_append, List.nil_append, List.getLastD_cons, List.getLastD_nil]
    decide

end DiscordBot
